import Mathlib

/-!
Shallow embedding of the recursive research loop of the
ai-browser-contextual-search repository: the Coordinator (planner),
the Looper (orchestrator), the bundled WebSearcher and ContentScraper
providers, and the ContextGraph that looper.js instantiates as its
session memory.  JavaScript runtime failures (TypeError on calling a
missing method, ReferenceError on reading an unbound identifier,
provider failures) are made explicit with an Except monad; numbers
that the source writes as decimal literals (0.85, 0.9, 0.7, 0.3, 0.95
and the rule confidences) are embedded exactly in hundredths (0.85
becomes 85 : Nat): every such literal in the source is a multiple of
0.01, so every comparison the source performs on them is preserved by
the scaling.
-/

/-- A JavaScript runtime error, as thrown by the engine code:
calling a property that is undefined raises a TypeError, evaluating an
identifier that is bound in no enclosing scope raises a ReferenceError,
and provider failures surface as generic errors. -/
inductive JsError where
  | typeError (msg : String)
  | referenceError (msg : String)
  | providerError (msg : String)
  deriving Repr, DecidableEq

/-- A discovered candidate source, as produced by WebSearcher.search
(src/backend/api/engine/tools/web_searcher.js): object literals with
fields title, url, snippet. -/
structure Reference where
  title : String
  url : String
  snippet : String
  deriving Repr, DecidableEq

/-- The intent object returned by Coordinator.classifyIntent
(coordinator.js): type, specialist, confidence (in hundredths: the
source literal 0.9 is stored as 90), and the optional breadth and
privacy_mode fields present only on some branches. -/
structure Intent where
  type : String
  specialist : String
  confidence : Nat
  breadth : Option String := none
  privacy_mode : Option String := none
  deriving Repr, DecidableEq

/-- A parameter value inside a step's params object: the source only
ever stores strings or arrays of strings there. -/
inductive ParamValue where
  | str (s : String)
  | strList (l : List String)
  deriving Repr, DecidableEq

/-- One step of a plan: an object { tool, params } as built by
Coordinator.generateSteps; params is a JavaScript object, embedded as
an association list. -/
structure Step where
  tool : String
  params : List (String × ParamValue)
  deriving Repr, DecidableEq

/-- A plan object { id, intent, steps } as returned by
Coordinator.plan; the id embeds the Date.now() timestamp, which is
passed in explicitly as `now`. -/
structure Plan where
  id : String
  intent : Intent
  steps : List Step
  deriving Repr, DecidableEq

/-- Boolean prefix test on character lists. -/
def charsPrefix : List Char → List Char → Bool
  | [], _ => true
  | _ :: _, [] => false
  | a :: as, b :: bs => a == b && charsPrefix as bs

/-- Boolean infix test on character lists: the pattern is a prefix of
some suffix. -/
def charsInfix (pat : List Char) : List Char → Bool
  | [] => charsPrefix pat []
  | c :: rest => charsPrefix pat (c :: rest) || charsInfix pat rest

/-- JavaScript toLowerCase, applied character by character; on the
ASCII keywords tested by classifyIntent this agrees with the JS
semantics. -/
def jsToLower (s : String) : String :=
  String.mk (s.data.map Char.toLower)

/-- JavaScript substring containment, the semantics of
String.prototype.includes used throughout classifyIntent. -/
def jsIncludes (s pat : String) : Bool :=
  charsInfix pat.toList s.toList

/-- The first rule of classifyIntent (coordinator.js line 54):
compile, scene, video, movie. -/
def Coordinator.mediaRule (q : String) : Bool :=
  jsIncludes q "compile" || jsIncludes q "scene" || jsIncludes q "video" || jsIncludes q "movie"

/-- The second rule of classifyIntent (coordinator.js line 62):
patent, offline, local, private. -/
def Coordinator.offlineRule (q : String) : Bool :=
  jsIncludes q "patent" || jsIncludes q "offline" || jsIncludes q "local" || jsIncludes q "private"

/-- The third rule of classifyIntent (coordinator.js line 70):
compare, research, find, why. -/
def Coordinator.researchRule (q : String) : Bool :=
  jsIncludes q "compare" || jsIncludes q "research" || jsIncludes q "find" || jsIncludes q "why"

/-- The fourth rule of classifyIntent (coordinator.js line 80):
porn, xxx, adult, nsfw, sex. -/
def Coordinator.adultRule (q : String) : Bool :=
  jsIncludes q "porn" || jsIncludes q "xxx" || jsIncludes q "adult" || jsIncludes q "nsfw" || jsIncludes q "sex"

/-- Coordinator.classifyIntent (coordinator.js lines 48-91): lowercase
the query, then try the four keyword rules in program order, returning
the intent literal of the first rule that matches; if none matches,
return the GENERAL_QUERY catch-all with confidence 0.5. -/
def Coordinator.classifyIntent (query : String) : Intent :=
  let q := jsToLower query
  if Coordinator.mediaRule q then
    { type := "MEDIA_COMPILATION", specialist := "StudioDirector", confidence := 90 }
  else if Coordinator.offlineRule q then
    { type := "OFFLINE_ANALYSIS", specialist := "LocalAnalyst", confidence := 95 }
  else if Coordinator.researchRule q then
    { type := "DEEP_RESEARCH", specialist := "RecursiveAgent", confidence := 85,
      breadth := some "massive" }
  else if Coordinator.adultRule q then
    { type := "ADULT_CONTENT", specialist := "RecursiveAgent", confidence := 99,
      breadth := some "massive", privacy_mode := some "maximum" }
  else
    { type := "GENERAL_QUERY", specialist := "QuickSearch", confidence := 50 }

/-- Coordinator.generateSteps (coordinator.js lines 93-115): a switch
on intent.type with a default branch; DEEP_RESEARCH and GENERAL_QUERY
both fall to the default single web_search step. -/
def Coordinator.generateSteps (intent : Intent) (query : String) : List Step :=
  if intent.type = "MEDIA_COMPILATION" then
    [ { tool := "scout_videos", params := [("query", ParamValue.str query)] },
      { tool := "analyze_scenes", params := [("filters", ParamValue.strList ["action", "dialogue"])] },
      { tool := "compile_video", params := [("format", ParamValue.str "mp4"), ("resolution", ParamValue.str "1080p")] } ]
  else if intent.type = "OFFLINE_ANALYSIS" then
    [ { tool := "local_inference", params := [("model", ParamValue.str "llama-3"), ("system_prompt", ParamValue.str "expert_patent_attorney")] } ]
  else if intent.type = "ADULT_CONTENT" then
    [ { tool := "web_search", params := [("depth", ParamValue.str "deep"), ("safe_search", ParamValue.str "off")] },
      { tool := "media_processor", params := [("filter", ParamValue.str "none")] } ]
  else
    [ { tool := "web_search", params := [("depth", ParamValue.str "recursive")] } ]

/-- Coordinator.plan (coordinator.js lines 35-46): classify the query
and expand the intent into steps.  The body performs no validation of
the query whatsoever: there is no emptiness or whitespace check and no
throw statement, so plan is a total function.  Date.now() is passed in
as `now`. -/
def Coordinator.plan (query : String) (now : Nat) : Plan :=
  let intent := Coordinator.classifyIntent query
  { id := "plan-" ++ toString now, intent := intent, steps := Coordinator.generateSteps intent query }

/-- The static methods the Coordinator class declares
(coordinator.js lines 26-118): plan, classifyIntent, generateSteps.
There is no replan method anywhere in the class or the module. -/
def Coordinator.methodNames : List String :=
  ["plan", "classifyIntent", "generateSteps"]

/-- Coordinator.replan, as invoked by looper.js line 45.  The
Coordinator class defines no replan property, so the property access
yields undefined and the call throws a TypeError at runtime; see
Coordinator.methodNames for the methods the class does declare. -/
def Coordinator.replan (query : String) (missingInfo : Option String) : Except JsError Plan :=
  Except.error (JsError.typeError "Coordinator.replan is not a function")


/-- A node of the session graph, as pushed by ContextGraph.addNode
(context_engine.js line 90): an object with id, label and type. -/
structure GraphNode where
  id : String
  label : String
  type : String
  deriving Repr, DecidableEq

/-- The sessionGraph object built by the ContextGraph constructor
(context_engine.js lines 57-63): nodes, edges and lastSnapshot.  The
source never writes edges and never assigns lastSnapshot on the looper
path, so their element types are immaterial; lastSnapshot starts as
null. -/
structure SessionGraph where
  nodes : List GraphNode
  edges : List String
  lastSnapshot : Option String
  deriving Repr, DecidableEq

/-- The ContextGraph constructor (context_engine.js lines 57-63). -/
def ContextGraph.new : SessionGraph :=
  { nodes := [], edges := [], lastSnapshot := none }

/-- The methods the ContextGraph class declares (context_engine.js
lines 56-97): processSnapshot, extractEntities, extractClaims,
addNode, getGraph.  None of the five methods looper.js calls on its
context (logInteraction, ingest, getTotalWordCount, getSourceCount,
getSources) is among them. -/
def ContextGraph.methodNames : List String :=
  ["processSnapshot", "extractEntities", "extractClaims", "addNode", "getGraph"]

/-- context.logInteraction, as called at looper.js line 24.  The
ContextGraph class declares no logInteraction property (see
ContextGraph.methodNames), so the property access yields undefined and
the call throws a TypeError. -/
def ContextGraph.logInteraction (g : SessionGraph) (event : String) (payload : Plan) :
    Except JsError SessionGraph :=
  Except.error (JsError.typeError "context.logInteraction is not a function")

/-- An entry of the per-iteration result buffer of
Looper.executeSteps: either a pushed urls record or a pushed content
record (looper.js lines 64 and 70). -/
inductive IntelItem where
  | urls (data : List Reference)
  | content (source : Reference) (data : String)
  deriving Repr, DecidableEq

/-- context.ingest, as called at looper.js line 33.  The ContextGraph
class declares no ingest property (see ContextGraph.methodNames), so
the call throws a TypeError. -/
def ContextGraph.ingest (g : SessionGraph) (newIntel : List IntelItem) :
    Except JsError SessionGraph :=
  Except.error (JsError.typeError "context.ingest is not a function")

/-- context.getTotalWordCount, as called at looper.js line 84.  The
ContextGraph class declares no getTotalWordCount property (see
ContextGraph.methodNames), so the call throws a TypeError. -/
def ContextGraph.getTotalWordCount (g : SessionGraph) : Except JsError Nat :=
  Except.error (JsError.typeError "context.getTotalWordCount is not a function")

/-- context.getSourceCount, as called at looper.js line 95.  The
ContextGraph class declares no getSourceCount property (see
ContextGraph.methodNames), so the call throws a TypeError. -/
def ContextGraph.getSourceCount (g : SessionGraph) : Except JsError Nat :=
  Except.error (JsError.typeError "context.getSourceCount is not a function")

/-- context.getSources, as called at looper.js line 96.  The
ContextGraph class declares no getSources property (see
ContextGraph.methodNames), so the call throws a TypeError. -/
def ContextGraph.getSources (g : SessionGraph) : Except JsError (List Reference) :=
  Except.error (JsError.typeError "context.getSources is not a function")

/-- The behavior of the two capability providers during one session:
search (the WebSearcher instance at looper.js line 63) and read (the
ContentScraper instance at looper.js line 69).  Leaving them abstract
lets the theorems quantify over every provider behavior, the bundled
mock providers included. -/
structure Providers where
  search : String → List (String × ParamValue) → Except JsError (List Reference)
  read : Reference → Except JsError String

/-- One pass of the step loop body of Looper.executeSteps (looper.js
lines 56-76), returning the items the step pushes or the error that
aborts it.  In the web_search branch the very first expression
evaluated is the object literal for searchOptions, whose breadth field
reads the identifier plan; plan is bound neither in executeSteps nor
at module scope of looper.js (it is a local of start), so evaluation
throws a ReferenceError before any provider is called and before any
push into the result buffer.  (The identifier query at line 63 is
equally unbound, but the ReferenceError on plan fires first.)  For
every other tool value no branch exists, so nothing is pushed. -/
def Looper.executeStep (providers : Providers) (step : Step) :
    Except JsError (List IntelItem) :=
  if step.tool = "web_search" then
    Except.error (JsError.referenceError "plan is not defined")
  else
    Except.ok []

/-- The try/catch wrapper around one step body (looper.js lines
56-76): on success the pushed items extend the buffer, a caught error
is logged and the loop proceeds with the buffer as it stands.  Since
the ReferenceError in the web_search branch fires before any push, a
failed step contributes nothing. -/
def Looper.stepFold (providers : Providers) (results : List IntelItem) (step : Step) :
    List IntelItem :=
  match Looper.executeStep providers step with
  | Except.ok items => results ++ items
  | Except.error _ => results

/-- Looper.executeSteps (looper.js lines 53-79): fold the guarded step
body over the steps, starting from the empty result buffer. -/
def Looper.executeSteps (providers : Providers) (steps : List Step) : List IntelItem :=
  steps.foldl (Looper.stepFold providers) []

/-- The audit object returned by Looper.evaluateProgress: satisfaction
in hundredths (0.9 stored as 90) and the optional missing_info
message. -/
structure Audit where
  satisfaction : Nat
  missing_info : Option String := none
  deriving Repr, DecidableEq

/-- The threshold logic of Looper.evaluateProgress (looper.js lines
84-87), over the word count value wordCount that
context.getTotalWordCount() would return: above 1000 words
satisfaction 0.9 with no message, above 500 words satisfaction 0.7
with a need-more-details message, otherwise satisfaction 0.3 with the
insufficient-content message. -/
def Looper.evaluateAudit (wordCount : Nat) : Audit :=
  if 1000 < wordCount then { satisfaction := 90 }
  else if 500 < wordCount then { satisfaction := 70, missing_info := some "Need more details" }
  else { satisfaction := 30, missing_info := some "Search failed to yield content" }

/-- Looper.evaluateProgress (looper.js lines 81-88): read the total
word count from the context, then apply the threshold logic.  The read
throws, because ContextGraph has no getTotalWordCount method. -/
def Looper.evaluateProgress (query : String) (g : SessionGraph) : Except JsError Audit := do
  let wordCount ← ContextGraph.getTotalWordCount g
  Except.ok (Looper.evaluateAudit wordCount)

/-- An entry of the hardcoded alternatives list of Looper.synthesize
(looper.js lines 99-110). -/
structure AlternativeEntry where
  label : String
  desc : String
  source : String
  deriving Repr, DecidableEq

/-- The final output object of Looper.synthesize (looper.js lines
94-113); confidence in hundredths (0.95 stored as 95). -/
structure SynthesisResult where
  answer : String
  sources : List Reference
  alternatives : List AlternativeEntry
  confidence : Nat
  deriving Repr, DecidableEq

/-- Looper.synthesize (looper.js lines 90-114): the answer string
interpolates context.getSourceCount() and the sources field takes the
first three of context.getSources(); both context calls throw, because
ContextGraph declares neither method. -/
def Looper.synthesize (query : String) (g : SessionGraph) : Except JsError SynthesisResult := do
  let sourceCount ← ContextGraph.getSourceCount g
  let sources ← ContextGraph.getSources g
  Except.ok
    { answer := "Based on recursive analysis of " ++ toString sourceCount ++
        " sources, the primary consensus is coherent. However, divergent timelines and alternative theories were found.",
      sources := sources.take 3,
      alternatives :=
        [ { label := "Contrarian Viewpoint",
            desc := "Some sources argue the opposite effect observed in main studies.",
            source := "https://contrarian-blog.com" },
          { label := "Historical Divergence",
            desc := "Pre-2000 data suggests a different trend.",
            source := "https://archive.org" } ],
      confidence := 95 }

/-- The options object passed to Looper.start (looper.js line 17):
depth and privacy, both optional. -/
structure Options where
  depth : Option String := none
  privacy : Option Bool := none
  deriving Repr, DecidableEq

/-- The iteration budget chosen at looper.js line 20: 4 when
options.depth === "deep", otherwise 2. -/
def Looper.maxIterationsFor (options : Options) : Nat :=
  if options.depth = some "deep" then 4 else 2

/-- The while loop of Looper.start (looper.js lines 26-47), with the
loop counter rephrased by remaining fuel: fuel stands for
maxIterations - iterations, so the loop body runs while fuel is
positive.  Each pass executes the steps, ingests, evaluates, and
either stops at satisfaction above 0.85 or replans and recurses; on
fuel 0 (budget exhausted) it falls through to the final synthesis of
looper.js line 50. -/
def Looper.startLoop (providers : Providers) (query : String) :
    Nat → Plan → SessionGraph → Except JsError SynthesisResult
  | 0, _plan, g => Looper.synthesize query g
  | fuel + 1, plan, g => do
      let newIntel := Looper.executeSteps providers plan.steps
      let g ← ContextGraph.ingest g newIntel
      let audit ← Looper.evaluateProgress query g
      if 85 < audit.satisfaction then
        Looper.synthesize query g
      else do
        let plan2 ← Coordinator.replan query audit.missing_info
        Looper.startLoop providers query fuel plan2 g

/-- Looper.start (looper.js lines 17-51): create the ephemeral
context, choose the iteration budget, plan, log the plan into the
context, run the loop, synthesize.  Date.now() inside Coordinator.plan
is passed in as `now`. -/
def Looper.start (providers : Providers) (query : String) (options : Options) (now : Nat) :
    Except JsError SynthesisResult := do
  let g := ContextGraph.new
  let maxIterations := Looper.maxIterationsFor options
  let plan := Coordinator.plan query now
  let g ← ContextGraph.logInteraction g "PLAN_CREATED" plan
  Looper.startLoop providers query maxIterations plan g

/-- The evaluator-call counter of the while loop of Looper.start
(looper.js lines 26-47): audits gives, for each iteration index, the
audit that the evaluateProgress call of that iteration produces under
an arbitrary provider and context behavior; fuel stands for
maxIterations - iterations as in Looper.startLoop.  Each loop pass
makes exactly one evaluator call; a pass whose audit exceeds 0.85
satisfaction is the last. -/
def Looper.loopEvalCalls (audits : Nat → Audit) (iterations : Nat) : Nat → Nat
  | 0 => 0
  | fuel + 1 =>
    if 85 < (audits iterations).satisfaction then 1
    else 1 + Looper.loopEvalCalls audits (iterations + 1) fuel

/-- Hexadecimal digit of a value below 16, uppercase as
encodeURIComponent produces it. -/
def uriHexDigit (n : Nat) : Char :=
  if n < 10 then Char.ofNat (48 + n) else Char.ofNat (55 + n)

/-- The ECMAScript encodeURIComponent builtin, as used by
WebSearcher.search: characters of the unreserved set pass through,
every other character is replaced by the percent-encoding of its UTF-8
bytes. -/
def encodeURIComponent (s : String) : String :=
  String.join (s.data.map (fun c =>
    if c.isAlpha || c.isDigit || "-_.!~*'()".toList.contains c then
      String.singleton c
    else
      String.join (((String.singleton c).toUTF8.data.toList).map (fun b =>
        String.mk ['%', uriHexDigit (b.toNat / 16), uriHexDigit (b.toNat % 16)]))))

/-- WebSearcher.search (web_searcher.js lines 8-50): a pure mock that,
for every query and options, returns the same six reference literals,
each with the URI-encoded query interpolated into its url; the body
contains no throw and no conditional, so the function never fails and
never returns an empty or shorter list. -/
def WebSearcher.search (query : String) (options : List (String × ParamValue)) :
    List Reference :=
  [ { title := "Unrestricted Results for " ++ query,
      url := "https://example.com/search?q=" ++ encodeURIComponent query,
      snippet := "Raw, unfiltered results for " ++ query ++ ". Accessing deep web indices..." },
    { title := "Community Discussion: " ++ query,
      url := "https://forum.adult-focus.net/t/" ++ encodeURIComponent query,
      snippet := "User discussions and uncensored content regarding " ++ query ++ "..." },
    { title := "Video Archives: " ++ query,
      url := "https://tube-site.com/v/" ++ encodeURIComponent query,
      snippet := "High-resolution video content found for " ++ query ++ ". Duration: 12:05." },
    { title := "Contradicting View: Why " ++ query ++ " is misunderstood",
      url := "https://contrarian-blog.com/posts/" ++ encodeURIComponent query,
      snippet := "Everyone thinks X, but actually Y. Here is the alternative perspective..." },
    { title := "Technical Deep Dive: The physics of " ++ query,
      url := "https://science.org/abstract/" ++ encodeURIComponent query,
      snippet := "Mathematical proof suggesting the standard model of " ++ query ++ " is incomplete." },
    { title := "Legacy/Historical Data for " ++ query,
      url := "https://archive.org/wayback/" ++ encodeURIComponent query,
      snippet := "In 1999, the consensus on " ++ query ++ " was vastly different..." } ]

/-- A neutral provider behavior used to instantiate theorems at
concrete inputs: search returns no references, read returns empty
text. -/
def mockProviders : Providers :=
  { search := fun _query _options => Except.ok [],
    read := fun _reference => Except.ok "" }

/-- The guarded step body never changes the buffer: a web_search step
aborts on the unbound identifier plan before its first push, and no
other tool has a branch. -/
theorem Looper.stepFold_fixed (providers : Providers) (results : List IntelItem) (step : Step) :
    Looper.stepFold providers results step = results := by
  unfold Looper.stepFold Looper.executeStep
  by_cases h : step.tool = "web_search" <;> simp [h]

/-- Folding the guarded step body leaves any buffer unchanged. -/
theorem Looper.foldl_stepFold (providers : Providers) :
    ∀ (steps : List Step) (acc : List IntelItem),
      steps.foldl (Looper.stepFold providers) acc = acc := by
  intro steps
  induction steps with
  | nil => intro acc; rfl
  | cons s rest ih =>
    intro acc
    rw [List.foldl_cons, Looper.stepFold_fixed, ih]

/-- Each pass of the while loop performs exactly one evaluator call,
so the call count never exceeds the remaining fuel. -/
theorem Looper.loopEvalCalls_le (audits : Nat → Audit) :
    ∀ (fuel iterations : Nat), Looper.loopEvalCalls audits iterations fuel ≤ fuel := by
  intro fuel
  induction fuel with
  | zero => intro i; simp [Looper.loopEvalCalls]
  | succ f ih =>
    intro i
    unfold Looper.loopEvalCalls
    split
    · omega
    · have := ih (i + 1)
      omega

/-- C1: the claim says Looper.start always returns a SynthesisResult
and never raises past the Executing phase.  On the code this is false:
for every query, every options object, every provider behavior and
every timestamp, start throws a TypeError at looper.js line 24,
because the ContextGraph it just constructed declares no
logInteraction method; the call never reaches the loop, the evaluator
or the synthesis. -/
theorem looper_start_always_type_error (providers : Providers) (query : String)
    (options : Options) (now : Nat) :
    Looper.start providers query options now =
      Except.error (JsError.typeError "context.logInteraction is not a function") := rfl

/-- C2: the while loop of Looper.start makes at most
maxIterations evaluator calls for every sequence of audits the
evaluator could produce under any provider behavior, hence at most
iterationBudget + 1 calls; and the budget chosen at looper.js line 20
is 4 exactly when options.depth is the string deep, otherwise 2. -/
theorem looper_eval_calls_within_budget (audits : Nat → Audit) (options : Options) :
    Looper.loopEvalCalls audits 0 (Looper.maxIterationsFor options) ≤
      Looper.maxIterationsFor options + 1
    ∧ Looper.maxIterationsFor options = (if options.depth = some "deep" then 4 else 2) := by
  constructor
  · have h := Looper.loopEvalCalls_le audits (Looper.maxIterationsFor options) 0
    omega
  · rfl

/-- The first reference of the Scenario D failing input. -/
def scenarioDRef1 : Reference :=
  { title := "first candidate", url := "https://a.example/1", snippet := "" }

/-- The second reference of the Scenario D failing input. -/
def scenarioDRef2 : Reference :=
  { title := "second candidate", url := "https://a.example/2", snippet := "" }

/-- The Scenario D provider behavior: search finds two references, the
read of the first throws ContentUnreadable, the read of the second
succeeds. -/
def scenarioDProviders : Providers :=
  { search := fun _query _options => Except.ok [scenarioDRef1, scenarioDRef2],
    read := fun reference =>
      if reference.url = scenarioDRef1.url then
        Except.error (JsError.providerError "ContentUnreadable")
      else
        Except.ok "readable content of the second reference" }

/-- C3: the claim says that when the read of the first of the two
selected references fails and the read of the second succeeds, the
second reference content is still buffered and ingested.  On the code
this is false: evaluated at the Scenario D input the iteration buffer
comes out empty - the web_search step throws a ReferenceError on the
unbound identifier plan before calling any provider, the per-step
catch swallows it, and nothing is pushed; even with plan in scope, the
try/catch wraps the whole step, so a throw on the first read would
abandon the loop over the remaining deep dives and the second
reference would never be read. -/
theorem scenario_d_buffer_empty :
    Looper.executeSteps scenarioDProviders
        [{ tool := "web_search", params := [("query", ParamValue.str "compare X and Y")] }]
      = [] := by
  rw [Looper.executeSteps, Looper.foldl_stepFold]

/-- C4 counterexample: at a context store whose cumulative word count
is exactly 1000 the evaluator threshold logic returns satisfaction 0.7
with the need-more-details message, falsifying the claim that a count
of at least 1000 yields satisfaction at least 0.85 and no missing-info
message (the source tests wordCount > 1000 strictly). -/
theorem evaluate_at_exactly_1000 :
    Looper.evaluateAudit 1000 = { satisfaction := 70, missing_info := some "Need more details" }
    ∧ ¬ (85 ≤ (Looper.evaluateAudit 1000).satisfaction
          ∧ (Looper.evaluateAudit 1000).missing_info = none) := by
  constructor
  · rfl
  · intro h
    simp [Looper.evaluateAudit] at h

/-- C4 as amended: for every word count strictly above 1000 the
evaluator returns satisfaction 0.9 (hence at least 0.85) with no
missing-info message, and for every word count below 500 it returns
satisfaction 0.3 with the insufficient-content message. -/
theorem evaluate_thresholds (wordCount : Nat) :
    (1000 < wordCount →
      (Looper.evaluateAudit wordCount).satisfaction = 90
      ∧ 85 ≤ (Looper.evaluateAudit wordCount).satisfaction
      ∧ (Looper.evaluateAudit wordCount).missing_info = none)
    ∧ (wordCount < 500 →
      (Looper.evaluateAudit wordCount).satisfaction = 30
      ∧ (Looper.evaluateAudit wordCount).missing_info =
          some "Search failed to yield content") := by
  unfold Looper.evaluateAudit
  constructor
  · intro h
    simp [h]
  · intro h
    have h1 : ¬ 1000 < wordCount := by omega
    have h2 : ¬ 500 < wordCount := by omega
    simp [h1, h2]

/-- Witness for evaluate_thresholds: at 1001 words the high branch
applies, at 0 words the insufficient-content branch applies. -/
theorem evaluate_thresholds_witness :
    ((Looper.evaluateAudit 1001).satisfaction = 90
      ∧ 85 ≤ (Looper.evaluateAudit 1001).satisfaction
      ∧ (Looper.evaluateAudit 1001).missing_info = none)
    ∧ ((Looper.evaluateAudit 0).satisfaction = 30
      ∧ (Looper.evaluateAudit 0).missing_info = some "Search failed to yield content") :=
  ⟨(evaluate_thresholds 1001).1 (by decide), (evaluate_thresholds 0).2 (by decide)⟩

/-- C5: the claim says Coordinator.replan returns a Plan with a
non-empty steps list containing a new search step.  On the code this
is false: the Coordinator class declares only plan, classifyIntent and
generateSteps, so the invocation Coordinator.replan(query,
missing_info) at looper.js line 45 calls undefined and throws a
TypeError instead of returning any Plan. -/
theorem coordinator_replan_undefined :
    (Coordinator.methodNames.contains "replan") = false
    ∧ Coordinator.replan "compare X and Y" (some "Need more details") =
        Except.error (JsError.typeError "Coordinator.replan is not a function") :=
  ⟨by decide, rfl⟩

/-- C6 counterexample: the claim says plan rejects the empty query
with InvalidInput before any provider call.  On the code this is
false: plan performs no validation, and at the empty query it returns
a normal GENERAL_QUERY plan with one web_search step. -/
theorem plan_empty_query_succeeds :
    (Coordinator.plan "" 0).intent.type = "GENERAL_QUERY"
    ∧ (Coordinator.plan "" 0).steps =
        [{ tool := "web_search", params := [("depth", ParamValue.str "recursive")] }] := by
  constructor <;> decide

/-- C6 as amended: plan never fails - there is no InvalidInput
rejection anywhere in its body - and for every query, the empty and
whitespace-only ones included, it returns a Plan with a non-empty
steps list, without any provider being called. -/
theorem plan_never_rejects (query : String) (now : Nat) :
    0 < (Coordinator.plan query now).steps.length := by
  unfold Coordinator.plan Coordinator.generateSteps
  dsimp only
  split_ifs <;> simp

/-- C7: the claim states append-only ingestion with monotonically
non-decreasing totalWordCount.  On the code no such operations exist:
ContextGraph declares neither ingest nor getTotalWordCount, and the
loop body of Looper.start throws a TypeError at its ingest call
(looper.js line 33) on every iteration it would run, so no ingestion
ever happens. -/
theorem start_loop_crashes_at_ingest (providers : Providers) (query : String)
    (plan : Plan) (g : SessionGraph) (fuel : Nat) (h : 0 < fuel) :
    (ContextGraph.methodNames.contains "ingest") = false
    ∧ (ContextGraph.methodNames.contains "getTotalWordCount") = false
    ∧ Looper.startLoop providers query fuel plan g =
        Except.error (JsError.typeError "context.ingest is not a function") := by
  refine ⟨by decide, by decide, ?_⟩
  cases fuel with
  | zero => omega
  | succ f => rfl

/-- Witness for start_loop_crashes_at_ingest at the fast budget of two
iterations with the mock providers. -/
theorem start_loop_crashes_at_ingest_witness :
    (ContextGraph.methodNames.contains "ingest") = false
    ∧ (ContextGraph.methodNames.contains "getTotalWordCount") = false
    ∧ Looper.startLoop mockProviders "compare X and Y" 2
        (Coordinator.plan "compare X and Y" 0) ContextGraph.new =
        Except.error (JsError.typeError "context.ingest is not a function") :=
  start_loop_crashes_at_ingest mockProviders "compare X and Y"
    (Coordinator.plan "compare X and Y" 0) ContextGraph.new 2 (by decide)

/-- C8: classifyIntent is deterministic (a pure function of the
query), the four keyword rules are tried in a fixed program order with
the first match winning - a query matching the media rule classifies
as MEDIA_COMPILATION no matter which later rules also match - and when
no rule matches the GENERAL_QUERY catch-all applies, whose confidence
0.5 is the minimum of all five category confidences (0.9, 0.95, 0.85,
0.99, 0.5). -/
theorem classify_deterministic_priority (query : String) :
    Coordinator.classifyIntent query = Coordinator.classifyIntent query
    ∧ (Coordinator.mediaRule (jsToLower query) = true →
        Coordinator.classifyIntent query =
          { type := "MEDIA_COMPILATION", specialist := "StudioDirector", confidence := 90 })
    ∧ ((Coordinator.mediaRule (jsToLower query) || Coordinator.offlineRule (jsToLower query)
        || Coordinator.researchRule (jsToLower query)
        || Coordinator.adultRule (jsToLower query)) = false →
        Coordinator.classifyIntent query =
          { type := "GENERAL_QUERY", specialist := "QuickSearch", confidence := 50 }
        ∧ 50 ≤ 90 ∧ 50 ≤ 95 ∧ 50 ≤ 85 ∧ 50 ≤ 99) := by
  refine ⟨rfl, ?_, ?_⟩
  · intro h
    unfold Coordinator.classifyIntent
    dsimp only
    simp [h]
  · intro h
    simp only [Bool.or_eq_false_iff] at h
    obtain ⟨⟨⟨hm, ho⟩, hr⟩, ha⟩ := h
    refine ⟨?_, by omega, by omega, by omega, by omega⟩
    unfold Coordinator.classifyIntent
    dsimp only
    simp [hm, ho, hr, ha]

/-- Witness for classify_deterministic_priority: the query movie takes
the first rule, the query hello there matches no rule and takes the
catch-all. -/
theorem classify_priority_witness :
    Coordinator.classifyIntent "movie" =
      { type := "MEDIA_COMPILATION", specialist := "StudioDirector", confidence := 90 }
    ∧ Coordinator.classifyIntent "hello there" =
      { type := "GENERAL_QUERY", specialist := "QuickSearch", confidence := 50 } :=
  ⟨(classify_deterministic_priority "movie").2.1 (by decide),
   ((classify_deterministic_priority "hello there").2.2 (by decide)).1⟩

/-- C9: for every provider behavior and every list of steps,
Looper.executeSteps returns an empty result buffer: each web_search
step throws a ReferenceError on the unbound identifier plan before its
first push and the per-step catch swallows the error, and steps with
any other tool have no branch and push nothing. -/
theorem execute_steps_always_empty (providers : Providers) (steps : List Step) :
    Looper.executeSteps providers steps = [] := by
  rw [Looper.executeSteps, Looper.foldl_stepFold]

/-- C10: for every query and options, the bundled WebSearcher.search
returns exactly six references - never an empty sequence and never a
failure, as the body is a single return of a six-element literal - and
the url of each reference embeds the URI-encoded query. -/
theorem web_searcher_always_six_results (query : String)
    (options : List (String × ParamValue)) :
    (WebSearcher.search query options).length = 6
    ∧ (WebSearcher.search query options).map Reference.url =
      [ "https://example.com/search?q=" ++ encodeURIComponent query,
        "https://forum.adult-focus.net/t/" ++ encodeURIComponent query,
        "https://tube-site.com/v/" ++ encodeURIComponent query,
        "https://contrarian-blog.com/posts/" ++ encodeURIComponent query,
        "https://science.org/abstract/" ++ encodeURIComponent query,
        "https://archive.org/wayback/" ++ encodeURIComponent query ] :=
  ⟨rfl, rfl⟩
